import Mathlib

/-!
Verification of the gateway's response-normalization, rate-limiting and
chat-orchestration core (src/gateway) against its natural-language
specification.

The Python code is shallowly embedded:
* JSON-like Python values are `PyVal`; the Python operations used by the
  code (`isinstance`, truthiness, `len`, subscripting, `in`, `.get`, `+`,
  `str()`) are modelled by `py*` helpers that return `Except PyErr _`
  exactly where the Python operation can raise.
* `LLMService._extract_response` is `extract_response`,
  `LLMService._extract_usage` is `extract_usage`
  (src/gateway/app/services/llm_service.py, lines 206-284).
* `RedisService.check_rate_limit` and the conversation helpers are
  modelled over an explicit backend state `RedisBackend`
  (src/gateway/app/services/redis_service.py).  The real store is a
  single string keyspace reached over REST; here counters, TTLs and
  conversations are separate association lists (their keys are disjoint
  by prefix in the source) and a transport/configuration failure of the
  REST layer is the `cfg`/`rch` flags (`_execute` catches every
  exception and returns `None`).
* `clean_response` (src/gateway/app/routers/chat.py, lines 19-24) is the
  regex substitution of every non-overlapping leftmost-shortest
  `<think>...</think>` span followed by `str.strip()`, modelled
  character-exactly by `subThink` and `pyStrip`.
* the `/chat` endpoint handler (src/gateway/app/routers/chat.py, lines
  62-183) is `chat_handler`, a pure function of the request, the Redis
  backend state and an environment of fault flags for the external
  collaborators; it returns a `ChatTrace` recording the caller-visible
  outcome and every externally observable effect.  Wall-clock latency
  and the token-usage passthrough are not modelled (no claim mentions
  them).
-/

mutual
/-- A Python/JSON value as handled by the RunPod response parser.
Booleans and floats never occur on the code paths under verification.
The mutual `PyList`/`PyDict` representation keeps every function over
values structurally recursive. -/
inductive PyVal where
  | none
  | int (n : Int)
  | str (s : String)
  | list (xs : PyList)
  | dict (es : PyDict)

/-- A Python list of values. -/
inductive PyList where
  | nil
  | cons (head : PyVal) (tail : PyList)

/-- A Python dict with string keys (as produced by JSON parsing);
duplicate keys do not occur. -/
inductive PyDict where
  | nil
  | cons (key : String) (val : PyVal) (tail : PyDict)
end

/-- The Python exceptions the embedded operations can raise. -/
inductive PyErr where
  | typeErr
  | keyErr
  | idxErr
  | attrErr
deriving DecidableEq, Repr

/-- Number of elements of a Python list. -/
def PyList.length : PyList → Nat
  | .nil => 0
  | .cons _ t => t.length + 1

/-- Number of entries of a Python dict. -/
def PyDict.length : PyDict → Nat
  | .nil => 0
  | .cons _ _ t => t.length + 1

/-- Dict lookup, first match (duplicate keys do not occur). -/
def getEntry : PyDict → String → Option PyVal
  | .nil, _ => Option.none
  | .cons k2 v rest, k => if k2 = k then some v else getEntry rest k

/-- A single-quote character, used by the Python `repr` rendering. -/
def squo : String := String.mk [Char.ofNat 39]

mutual
/-- Python `repr(v)`; string escaping inside `repr` is not modelled
(no claim depends on it). -/
def pyRepr : PyVal → String
  | .none => "None"
  | .int n => toString n
  | .str s => squo ++ s ++ squo
  | .list xs => "[" ++ pyReprList xs ++ "]"
  | .dict es => "\x7b" ++ pyReprDict es ++ "\x7d"

/-- Comma-separated `repr` of list elements. -/
def pyReprList : PyList → String
  | .nil => ""
  | .cons x .nil => pyRepr x
  | .cons x (.cons y rest) => pyRepr x ++ ", " ++ pyReprList (.cons y rest)

/-- Comma-separated `repr` of dict entries. -/
def pyReprDict : PyDict → String
  | .nil => ""
  | .cons k v .nil => squo ++ k ++ squo ++ ": " ++ pyRepr v
  | .cons k v (.cons k2 v2 rest) =>
    squo ++ k ++ squo ++ ": " ++ pyRepr v ++ ", " ++ pyReprDict (.cons k2 v2 rest)
end

/-- Python `str(v)`: identity on strings, `repr`-style otherwise. -/
def pyStr (v : PyVal) : String :=
  match v with
  | .str s => s
  | v => pyRepr v

/-- Python truthiness of a value. -/
def pyTruthy : PyVal → Bool
  | .none => false
  | .int n => n != 0
  | .str s => s != ""
  | .list .nil => false
  | .list (.cons _ _) => true
  | .dict .nil => false
  | .dict (.cons _ _ _) => true

/-- Python `len(v)`; raises `TypeError` on ints and `None`. -/
def pyLen : PyVal → Except PyErr Nat
  | .str s => .ok s.length
  | .list xs => .ok xs.length
  | .dict es => .ok es.length
  | _ => .error .typeErr

/-- Python `v[0]`: list head, first character of a string, `KeyError`
on a (string-keyed) dict, `TypeError` otherwise. -/
def pyIndex0 : PyVal → Except PyErr PyVal
  | .list (.cons x _) => .ok x
  | .list .nil => .error .idxErr
  | .str s =>
    match s.data with
    | c :: _ => .ok (.str (String.mk [c]))
    | [] => .error .idxErr
  | .dict _ => .error .keyErr
  | _ => .error .typeErr

/-- Leftmost split of `l` around the first occurrence of `pat`:
`some (before, after)` when `pat` occurs, `none` otherwise. -/
def splitFirst (pat : List Char) : List Char → Option (List Char × List Char)
  | [] => if pat.length = 0 then some ([], []) else Option.none
  | c :: rest =>
    if (c :: rest).take pat.length = pat then some ([], (c :: rest).drop pat.length)
    else
      match splitFirst pat rest with
      | some (before, after) => some (c :: before, after)
      | Option.none => Option.none

/-- Python substring test `pat in s`. -/
def strContains (s pat : String) : Bool := (splitFirst pat.data s.data).isSome

/-- Python equality of a value against a string literal (non-strings
compare unequal). -/
def pyEqStr (v : PyVal) (s : String) : Bool :=
  match v with
  | .str t => t == s
  | _ => false

/-- Is some element of the Python list equal to the string `k`? -/
def pyListHasStr : PyList → String → Bool
  | .nil, _ => false
  | .cons x rest, k => pyEqStr x k || pyListHasStr rest k

/-- Python `k in v`: dict key test, list membership, substring test on
strings; raises `TypeError` on ints and `None`. -/
def pyContains (v : PyVal) (k : String) : Except PyErr Bool :=
  match v with
  | .dict es => .ok (getEntry es k).isSome
  | .list xs => .ok (pyListHasStr xs k)
  | .str s => .ok (strContains s k)
  | _ => .error .typeErr

/-- Python `v[k]` with a string key: dict lookup (`KeyError` when
absent), `TypeError` on every other receiver. -/
def pySubscript (v : PyVal) (k : String) : Except PyErr PyVal :=
  match v with
  | .dict es =>
    match getEntry es k with
    | some x => .ok x
    | Option.none => .error .keyErr
  | _ => .error .typeErr

/-- Python `v.get(k, dflt)`: only dicts have `.get`; anything else
raises `AttributeError`. -/
def pyGet (v : PyVal) (k : String) (dflt : PyVal) : Except PyErr PyVal :=
  match v with
  | .dict es => .ok ((getEntry es k).getD dflt)
  | _ => .error .attrErr

/-- Python `a + b` as used on usage counters: numeric addition,
string/list concatenation, `TypeError` otherwise (in particular when
one side is `None`). -/
def pyAdd : PyVal → PyVal → Except PyErr PyVal
  | .int x, .int y => .ok (.int (x + y))
  | .str x, .str y => .ok (.str (x ++ y))
  | _, _ => .error .typeErr

/-!  `LLMService._extract_response` (llm_service.py lines 206-257). -/

/-- Lines 219-221: `if isinstance(output, list) and len(output) > 0:
output = output[0]`. -/
def unwrapOut (o : PyVal) : PyVal :=
  match o with
  | .list (.cons x _) => x
  | _ => o

/-- Lines 236-239 of the choices block: the `message` probe (returning
`choice.get("message", {}).get("content", "")`) and the `text` probe,
reached after the `tokens` probe did not return. -/
def afterTokens (choice : PyVal) : Except PyErr (Option PyVal) :=
  match pyContains choice "message" with
  | .error e => .error e
  | .ok true =>
    match pyGet choice "message" (.dict .nil) with
    | .error e => .error e
    | .ok m =>
      match pyGet m "content" (.str "") with
      | .error e => .error e
      | .ok c => .ok (some c)
  | .ok false =>
    match pyContains choice "text" with
    | .error e => .error e
    | .ok true =>
      match pySubscript choice "text" with
      | .error e => .error e
      | .ok t => .ok (some t)
    | .ok false => .ok Option.none

/-- Lines 227-239: the vLLM `choices` block.  `ok none` means control
fell through to the flat-field probes. -/
def choicesBlock (od : PyDict) : Except PyErr (Option PyVal) :=
  match getEntry od "choices" with
  | Option.none => .ok Option.none
  | some cv =>
    match pyTruthy cv with
    | false => .ok Option.none
    | true =>
      match pyLen cv with
      | .error e => .error e
      | .ok 0 => .ok Option.none
      | .ok (_ + 1) =>
        match pyIndex0 cv with
        | .error e => .error e
        | .ok choice =>
          match pyContains choice "tokens" with
          | .error e => .error e
          | .ok true =>
            match pySubscript choice "tokens" with
            | .error e => .error e
            | .ok (.list (.cons t _)) => .ok (some t)
            | .ok _ => afterTokens choice
          | .ok false => afterTokens choice

/-- Lines 241-252: the flat `text` / `response` / `content` probes on
the output dict (these never raise; they return raw values). -/
def flatFields (od : PyDict) : Option PyVal :=
  match getEntry od "text" with
  | some (.list (.cons x _)) => some x
  | some (.list .nil) => some (.str "")
  | some t => some t
  | Option.none =>
    match getEntry od "response" with
    | some r => some r
    | Option.none =>
      match getEntry od "content" with
      | some c => some c
      | Option.none => Option.none

/-- Lines 223-257 applied to the (already unwrapped) `output` value. -/
def outPart (o : PyVal) : Except PyErr PyVal :=
  match o with
  | .str s => .ok (.str s)
  | .dict od =>
    match choicesBlock od with
    | .error e => .error e
    | .ok (some r) => .ok r
    | .ok Option.none =>
      match flatFields od with
      | some r => .ok r
      | Option.none => .ok (.str (pyStr (.dict od)))
  | .list (.cons x _) => .ok (.str (pyStr x))
  | o => .ok (.str (pyStr o))

/-- Lines 214-257: the body after the outer list unwrap. -/
def extractCore (result : PyVal) : Except PyErr PyVal :=
  match result with
  | .dict d => outPart (unwrapOut ((getEntry d "output").getD (.dict .nil)))
  | _ => .ok (.str (pyStr result))

/-- `LLMService._extract_response` (lines 206-257).  The result is the
value Python would return (`.ok`) or the exception it would raise
(`.error`); note the source returns raw probed values, not forcibly
strings. -/
def extract_response (result : PyVal) : Except PyErr PyVal :=
  match result with
  | .list .nil => .ok (.str "")
  | .list (.cons x _) => extractCore x
  | _ => extractCore result

/-!  `LLMService._extract_usage` (llm_service.py lines 259-284). -/

/-- Python `u.get(k1, dflt) or u.get(k2, dflt)` (short-circuiting on
the truthiness of the first operand). -/
def pyOrGet (u : PyVal) (k1 k2 : String) (dflt : PyVal) : Except PyErr PyVal :=
  match pyGet u k1 dflt with
  | .error e => .error e
  | .ok a => if pyTruthy a then .ok a else pyGet u k2 dflt

/-- The usage dict built at lines 278-283, for a truthy `usage` value. -/
def usageFields (usage : PyVal) : Except PyErr PyVal :=
  match pyOrGet usage "input" "prompt_tokens" .none with
  | .error e => .error e
  | .ok pt =>
    match pyOrGet usage "output" "completion_tokens" .none with
    | .error e => .error e
    | .ok ct =>
      match pyOrGet usage "input" "prompt_tokens" (.int 0) with
      | .error e => .error e
      | .ok tl =>
        match pyOrGet usage "output" "completion_tokens" (.int 0) with
        | .error e => .error e
        | .ok tr =>
          match pyAdd tl tr with
          | .error e => .error e
          | .ok tot =>
            .ok (.dict (.cons "prompt_tokens" pt
              (.cons "completion_tokens" ct
                (.cons "total_tokens" tot .nil))))

/-- `LLMService._extract_usage` (lines 259-284). -/
def extract_usage (result : PyVal) : Except PyErr PyVal :=
  match result with
  | .list .nil => .ok (.dict .nil)
  | other =>
    let r := match other with
      | .list (.cons x _) => x
      | v => v
    match r with
    | .dict d =>
      match unwrapOut ((getEntry d "output").getD (.dict .nil)) with
      | .dict od =>
        let usage := (getEntry od "usage").getD (.dict .nil)
        if pyTruthy usage then usageFields usage else .ok (.dict .nil)
      | _ => .ok (.dict .nil)
    | _ => .ok (.dict .nil)

/-!  Claim C1: the extraction priority order.

`extractClaim` is the algorithm exactly as the claim words it
("Modelled from the spec", for refutation): step (1) unwraps a
single-element outer list, step (3) unwraps a single-element `output`
list.  Probed values are coerced with `pyStr` where the claim assumes
strings; a probe whose path is absent fails and control moves on.  -/

/-- Claim step (5): probe `choices[0]` for `tokens[0]`, then
`message.content`, then `text`, in that order. -/
def probeChoiceClaim (c : PyVal) : Option String :=
  match c with
  | .dict cd =>
    match getEntry cd "tokens" with
    | some (.list (.cons t _)) => some (pyStr t)
    | _ =>
      match getEntry cd "message" with
      | some (.dict md) =>
        match getEntry md "content" with
        | some v => some (pyStr v)
        | Option.none => Option.none
      | _ =>
        match getEntry cd "text" with
        | some v => some (pyStr v)
        | Option.none => Option.none
  | _ => Option.none

/-- Claim step (6): probe the output's `text` field (index 0 if it is
a list), then `response`, then `content`, in that order. -/
def flatClaim (od : PyDict) : Option String :=
  match getEntry od "text" with
  | some (.list (.cons x _)) => some (pyStr x)
  | some (.list .nil) => Option.none
  | some v => some (pyStr v)
  | Option.none =>
    match getEntry od "response" with
    | some v => some (pyStr v)
    | Option.none =>
      match getEntry od "content" with
      | some v => some (pyStr v)
      | Option.none => Option.none

/-- Modelled from the spec: claim C1's priority-ordered extraction
algorithm, exactly as stated — in particular steps (1) and (3) unwrap
only SINGLE-element lists. -/
def extractClaim (v : PyVal) : String :=
  let r := match v with
    | .list (.cons x .nil) => x
    | other => other
  match r with
  | .str s => s
  | .dict d =>
    let o := (getEntry d "output").getD (.dict .nil)
    let o2 := match o with
      | .list (.cons x .nil) => x
      | other => other
    match o2 with
    | .str s => s
    | .dict od =>
      match (match getEntry od "choices" with
             | some (.list (.cons c _)) => probeChoiceClaim c
             | _ => Option.none) with
      | some s => s
      | Option.none =>
        match flatClaim od with
        | some s => s
        | Option.none => pyStr (.dict od)
    | other => pyStr other
  | other => pyStr other

/-!  The amended algorithm: same priority order, but steps (1) and (3)
take the FIRST element of a NONEMPTY list (an empty outer list yields
`""`), step (5)'s `message` probe returns `message.content`-or-`""` as
soon as the `message` key exists, and step (7) stringifies the first
element of a residual nonempty list.  It is written as an explicit
ordered chain of matchers (`runMatchers`) so the precedence is
auditable, and proved equal to the source's nested-conditional
`extract_response` on every input. -/

/-- Run an ordered list of matchers: the first one that raises or
returns a value decides; `ok none` falls through to the next. -/
def runMatchers : List (PyVal → Except PyErr (Option PyVal)) → PyVal → Except PyErr (Option PyVal)
  | [], _ => .ok Option.none
  | m :: ms, v =>
    match m v with
    | .error e => .error e
    | .ok (some r) => .ok (some r)
    | .ok Option.none => runMatchers ms v

/-- Amended step (5a): `tokens[0]` when `tokens` is present and a
nonempty list (Python `in` / subscript semantics, so it can raise). -/
def tokensMatcher (choice : PyVal) : Except PyErr (Option PyVal) :=
  match pyContains choice "tokens" with
  | .error e => .error e
  | .ok false => .ok Option.none
  | .ok true =>
    match pySubscript choice "tokens" with
    | .error e => .error e
    | .ok (.list (.cons t _)) => .ok (some t)
    | .ok _ => .ok Option.none

/-- Amended step (5b): when a `message` key exists, return
`message.content`, defaulting to `""`. -/
def messageMatcher (choice : PyVal) : Except PyErr (Option PyVal) :=
  match pyContains choice "message" with
  | .error e => .error e
  | .ok false => .ok Option.none
  | .ok true =>
    match pyGet choice "message" (.dict .nil) with
    | .error e => .error e
    | .ok m =>
      match pyGet m "content" (.str "") with
      | .error e => .error e
      | .ok c => .ok (some c)

/-- Amended step (5c): the choice's `text` field. -/
def choiceTextMatcher (choice : PyVal) : Except PyErr (Option PyVal) :=
  match pyContains choice "text" with
  | .error e => .error e
  | .ok false => .ok Option.none
  | .ok true =>
    match pySubscript choice "text" with
    | .error e => .error e
    | .ok t => .ok (some t)

/-- Amended step (5): the `choices[0]` probes, in order. -/
def choicesMatcher (o : PyVal) : Except PyErr (Option PyVal) :=
  match o with
  | .dict od =>
    match getEntry od "choices" with
    | Option.none => .ok Option.none
    | some cv =>
      match pyTruthy cv with
      | false => .ok Option.none
      | true =>
        match pyLen cv with
        | .error e => .error e
        | .ok 0 => .ok Option.none
        | .ok (_ + 1) =>
          match pyIndex0 cv with
          | .error e => .error e
          | .ok choice => runMatchers [tokensMatcher, messageMatcher, choiceTextMatcher] choice
  | _ => .ok Option.none

/-- Amended step (6a): the output's `text` field, index 0 when it is a
list (`""` for an empty list). -/
def textMatcher (o : PyVal) : Except PyErr (Option PyVal) :=
  match o with
  | .dict od =>
    match getEntry od "text" with
    | some (.list (.cons x _)) => .ok (some x)
    | some (.list .nil) => .ok (some (.str ""))
    | some t => .ok (some t)
    | Option.none => .ok Option.none
  | _ => .ok Option.none

/-- Amended step (6b): the output's `response` field. -/
def responseMatcher (o : PyVal) : Except PyErr (Option PyVal) :=
  match o with
  | .dict od =>
    match getEntry od "response" with
    | some r => .ok (some r)
    | Option.none => .ok Option.none
  | _ => .ok Option.none

/-- Amended step (6c): the output's `content` field. -/
def contentMatcher (o : PyVal) : Except PyErr (Option PyVal) :=
  match o with
  | .dict od =>
    match getEntry od "content" with
    | some c => .ok (some c)
    | Option.none => .ok Option.none
  | _ => .ok Option.none

/-- Amended steps (4)-(7) on the unwrapped output value. -/
def amendedOut (o : PyVal) : Except PyErr PyVal :=
  match o with
  | .str s => .ok (.str s)
  | _ =>
    match runMatchers [choicesMatcher, textMatcher, responseMatcher, contentMatcher] o with
    | .error e => .error e
    | .ok (some r) => .ok r
    | .ok Option.none =>
      match o with
      | .list (.cons x _) => .ok (.str (pyStr x))
      | w => .ok (.str (pyStr w))

/-- Amended steps (2)-(7) after the outer unwrap. -/
def amendedCore (r : PyVal) : Except PyErr PyVal :=
  match r with
  | .dict d =>
    amendedOut (match (getEntry d "output").getD (.dict .nil) with
      | .list (.cons x _) => x
      | w => w)
  | w => .ok (.str (pyStr w))

/-- The amended claim-C1 algorithm in full. -/
def extractAmended (v : PyVal) : Except PyErr PyVal :=
  match v with
  | .list .nil => .ok (.str "")
  | .list (.cons x _) => amendedCore x
  | w => amendedCore w

theorem afterTokens_eq (c : PyVal) :
    afterTokens c = runMatchers [messageMatcher, choiceTextMatcher] c := by
  simp only [afterTokens, runMatchers, messageMatcher, choiceTextMatcher]
  generalize pyContains c "message" = pm
  cases pm with
  | error e => rfl
  | ok b =>
    cases b with
    | true =>
      dsimp only
      generalize pyGet c "message" (PyVal.dict .nil) = g1
      cases g1 with
      | error e => rfl
      | ok m =>
        dsimp only
        generalize pyGet m "content" (PyVal.str "") = g2
        cases g2 with
        | error e => rfl
        | ok v => rfl
    | false =>
      dsimp only
      generalize pyContains c "text" = pt
      cases pt with
      | error e => rfl
      | ok b2 =>
        cases b2 with
        | true =>
          dsimp only
          generalize pySubscript c "text" = s1
          cases s1 with
          | error e => rfl
          | ok t => rfl
        | false => rfl

theorem choicesBlock_eq (od : PyDict) :
    choicesBlock od = choicesMatcher (.dict od) := by
  simp only [choicesBlock, choicesMatcher]
  generalize getEntry od "choices" = gc
  cases gc with
  | none => rfl
  | some cv =>
    dsimp only
    generalize pyTruthy cv = tb
    cases tb with
    | false => rfl
    | true =>
      dsimp only
      generalize pyLen cv = ln
      cases ln with
      | error e => rfl
      | ok n =>
        cases n with
        | zero => rfl
        | succ n2 =>
          dsimp only
          generalize pyIndex0 cv = pi0
          cases pi0 with
          | error e => rfl
          | ok choice =>
            dsimp only
            simp only [runMatchers, tokensMatcher]
            generalize pyContains choice "tokens" = ct
            cases ct with
            | error e => rfl
            | ok b =>
              cases b with
              | false =>
                dsimp only
                exact afterTokens_eq choice
              | true =>
                dsimp only
                generalize pySubscript choice "tokens" = st
                cases st with
                | error e => rfl
                | ok tv =>
                  cases tv with
                  | list xs =>
                    cases xs with
                    | nil =>
                      dsimp only
                      exact afterTokens_eq choice
                    | cons t rest => rfl
                  | none =>
                    dsimp only
                    exact afterTokens_eq choice
                  | int n3 =>
                    dsimp only
                    exact afterTokens_eq choice
                  | str s =>
                    dsimp only
                    exact afterTokens_eq choice
                  | dict es =>
                    dsimp only
                    exact afterTokens_eq choice

theorem flat_eq (od : PyDict) :
    runMatchers [textMatcher, responseMatcher, contentMatcher] (.dict od) =
      .ok (flatFields od) := by
  simp only [runMatchers, textMatcher, responseMatcher, contentMatcher, flatFields]
  generalize getEntry od "text" = gt
  cases gt with
  | some t =>
    cases t with
    | list xs =>
      cases xs with
      | nil => rfl
      | cons x rest => rfl
    | none => rfl
    | int n => rfl
    | str s => rfl
    | dict es => rfl
  | none =>
    dsimp only
    generalize getEntry od "response" = gr
    cases gr with
    | some r => rfl
    | none =>
      dsimp only
      generalize getEntry od "content" = gco
      cases gco with
      | some c2 => rfl
      | none => rfl

theorem outPart_eq (o : PyVal) : outPart o = amendedOut o := by
  cases o with
  | str s => rfl
  | dict od =>
    simp only [outPart, amendedOut, runMatchers]
    rw [← choicesBlock_eq]
    generalize choicesBlock od = cb
    cases cb with
    | error e => rfl
    | ok r =>
      cases r with
      | some v => rfl
      | none =>
        dsimp only
        have hf := flat_eq od
        simp only [runMatchers] at hf
        rw [hf]
        generalize flatFields od = ff
        cases ff with
        | some v => rfl
        | none => rfl
  | list xs =>
    cases xs with
    | nil => rfl
    | cons x rest => rfl
  | int n => rfl
  | none => rfl

theorem extractCore_eq (r : PyVal) : extractCore r = amendedCore r := by
  cases r with
  | dict d =>
    simp only [extractCore, amendedCore, unwrapOut]
    generalize (getEntry d "output").getD (PyVal.dict .nil) = o
    cases o with
    | list xs =>
      cases xs with
      | nil => exact outPart_eq _
      | cons x t => exact outPart_eq _
    | str s => exact outPart_eq _
    | dict es => exact outPart_eq _
    | int n => exact outPart_eq _
    | none => exact outPart_eq _
  | str s => rfl
  | list xs => rfl
  | int n => rfl
  | none => rfl

/-- C1 (counterexample): on the two-element outer list `["a", "b"]`
the code takes the FIRST element and extracts `"a"`, while the
algorithm exactly as the claim states it ("unwrap a SINGLE-element
outer list", then stringify non-dict/non-string shapes) stringifies
the whole list; the two diverge, so extraction does not follow the
claimed steps verbatim. -/
theorem c1_priority_counterexample :
    extract_response (.list (.cons (.str "a") (.cons (.str "b") .nil))) = .ok (.str "a") ∧
    extractClaim (.list (.cons (.str "a") (.cons (.str "b") .nil))) =
      "[" ++ squo ++ "a" ++ squo ++ ", " ++ squo ++ "b" ++ squo ++ "]" ∧
    ("a" : String) ≠ "[" ++ squo ++ "a" ++ squo ++ ", " ++ squo ++ "b" ++ squo ++ "]" :=
  ⟨rfl, by decide, by decide⟩

/-- **C1** (amended): RunPod response extraction follows the claimed
priority order with steps (1) and (3) amended to take the first
element of a NONEMPTY list (an empty outer list yields `""`), the
`message` probe of step (5) returning `message.content`-or-`""` as
soon as a `message` key exists, and step (7) stringifying the first
element of a residual nonempty list: `extract_response` equals the
explicit ordered matcher chain `extractAmended` on every input, and
for `{"output": {"choices": [{"tokens": ["hello world"]}]}}` the
extracted text is exactly `"hello world"`. -/
theorem c1_extraction_priority :
    (∀ v, extract_response v = extractAmended v) ∧
    extract_response (.dict (.cons "output" (.dict (.cons "choices"
        (.list (.cons (.dict (.cons "tokens" (.list (.cons (.str "hello world") .nil)) .nil))
          .nil)) .nil)) .nil))
      = .ok (.str "hello world") := by
  constructor
  · intro v
    cases v with
    | list xs =>
      cases xs with
      | nil => rfl
      | cons x t => exact extractCore_eq x
    | str s =>
      simp only [extract_response, extractAmended]
      exact extractCore_eq _
    | dict d =>
      simp only [extract_response, extractAmended]
      exact extractCore_eq _
    | int n =>
      simp only [extract_response, extractAmended]
      exact extractCore_eq _
    | none =>
      simp only [extract_response, extractAmended]
      exact extractCore_eq _
  · rfl

/-!  Claim C2: extraction never raises and yields a string on every
supported shape of §4.1. -/

/-- §4.1 shapes for the output's `text` field: a string, or a list
whose index 0 (when present) is a string. -/
inductive GoodText : PyVal → Prop where
  | str (s : String) : GoodText (.str s)
  | listNil : GoodText (.list .nil)
  | listCons (s : String) (rest : PyList) : GoodText (.list (.cons (.str s) rest))

/-- §4.1 shapes for `choices[0]`: token-list style `tokens[0]`,
OpenAI style `message.content`, or a flat `text` field. -/
inductive GoodChoice : PyVal → Prop where
  | tokens (cd : PyDict) (s : String) (rest : PyList) :
      getEntry cd "tokens" = some (.list (.cons (.str s) rest)) → GoodChoice (.dict cd)
  | message (cd md : PyDict) (s : String) :
      getEntry cd "tokens" = Option.none →
      getEntry cd "message" = some (.dict md) →
      getEntry md "content" = some (.str s) → GoodChoice (.dict cd)
  | text (cd : PyDict) (s : String) :
      getEntry cd "tokens" = Option.none →
      getEntry cd "message" = Option.none →
      getEntry cd "text" = some (.str s) → GoodChoice (.dict cd)

/-- §4.1 shapes for the output dict: `choices[0]` in a supported
shape, flat `text`/`response`/`content` fields, or a plain dict with
none of the recognized fields (which is stringified). -/
inductive GoodOutDict : PyDict → Prop where
  | choices (od : PyDict) (c : PyVal) (cs : PyList) :
      getEntry od "choices" = some (.list (.cons c cs)) → GoodChoice c → GoodOutDict od
  | text (od : PyDict) (t : PyVal) :
      getEntry od "choices" = Option.none →
      getEntry od "text" = some t → GoodText t → GoodOutDict od
  | response (od : PyDict) (s : String) :
      getEntry od "choices" = Option.none →
      getEntry od "text" = Option.none →
      getEntry od "response" = some (.str s) → GoodOutDict od
  | content (od : PyDict) (s : String) :
      getEntry od "choices" = Option.none →
      getEntry od "text" = Option.none →
      getEntry od "response" = Option.none →
      getEntry od "content" = some (.str s) → GoodOutDict od
  | plain (od : PyDict) :
      getEntry od "choices" = Option.none →
      getEntry od "text" = Option.none →
      getEntry od "response" = Option.none →
      getEntry od "content" = Option.none → GoodOutDict od

/-- §4.1 shapes for the `output` value: a bare string or a supported
dict. -/
inductive GoodOut : PyVal → Prop where
  | str (s : String) : GoodOut (.str s)
  | dict (od : PyDict) : GoodOutDict od → GoodOut (.dict od)

/-- §4.1 shapes for the (outer-unwrapped) result: a bare string, or a
dict whose `output` is absent, supported, or a one-element list
wrapping a supported value. -/
inductive GoodResult : PyVal → Prop where
  | str (s : String) : GoodResult (.str s)
  | noOutput (d : PyDict) : getEntry d "output" = Option.none → GoodResult (.dict d)
  | output (d : PyDict) (o : PyVal) :
      getEntry d "output" = some o → GoodOut o → GoodResult (.dict d)
  | outputList (d : PyDict) (o : PyVal) :
      getEntry d "output" = some (.list (.cons o .nil)) → GoodOut o → GoodResult (.dict d)

/-- The upstream response shapes enumerated in §4.1: a supported
result, or a one-element list wrapping one. -/
inductive SupportedShape : PyVal → Prop where
  | base (v : PyVal) : GoodResult v → SupportedShape v
  | wrap (v : PyVal) : GoodResult v → SupportedShape (.list (.cons v .nil))

theorem outPart_good (o : PyVal) (h : GoodOut o) : ∃ s, outPart o = .ok (.str s) := by
  cases h with
  | str s => exact ⟨s, rfl⟩
  | dict od hd =>
    cases hd with
    | choices c cs hc hch =>
      cases hch with
      | tokens cd s rest htok =>
        refine ⟨s, ?_⟩
        simp [outPart, choicesBlock, hc, pyTruthy, pyLen, PyList.length, pyIndex0,
          pyContains, pySubscript, htok]
      | message cd md s htok hmsg hcont =>
        refine ⟨s, ?_⟩
        simp [outPart, choicesBlock, hc, pyTruthy, pyLen, PyList.length, pyIndex0,
          pyContains, pySubscript, pyGet, afterTokens, htok, hmsg, hcont]
      | text cd s htok hmsg htxt =>
        refine ⟨s, ?_⟩
        simp [outPart, choicesBlock, hc, pyTruthy, pyLen, PyList.length, pyIndex0,
          pyContains, pySubscript, pyGet, afterTokens, htok, hmsg, htxt]
    | text t hc htx hgt =>
      cases hgt with
      | str s =>
        refine ⟨s, ?_⟩
        simp [outPart, choicesBlock, flatFields, hc, htx]
      | listNil =>
        refine ⟨"", ?_⟩
        simp [outPart, choicesBlock, flatFields, hc, htx]
      | listCons s rest =>
        refine ⟨s, ?_⟩
        simp [outPart, choicesBlock, flatFields, hc, htx]
    | response s hc htx hr =>
      refine ⟨s, ?_⟩
      simp [outPart, choicesBlock, flatFields, hc, htx, hr]
    | content s hc htx hr hco =>
      refine ⟨s, ?_⟩
      simp [outPart, choicesBlock, flatFields, hc, htx, hr, hco]
    | plain hc htx hr hco =>
      refine ⟨pyStr (.dict od), ?_⟩
      simp [outPart, choicesBlock, flatFields, hc, htx, hr, hco]

theorem extractCore_good (r : PyVal) (h : GoodResult r) :
    ∃ s, extractCore r = .ok (.str s) := by
  cases h with
  | str s => exact ⟨s, rfl⟩
  | noOutput d h0 =>
    refine ⟨pyStr (.dict .nil), ?_⟩
    simp [extractCore, h0, unwrapOut, outPart, choicesBlock, flatFields, getEntry]
  | output d o ho hgo =>
    have hu : unwrapOut o = o := by cases hgo <;> rfl
    have := outPart_good o hgo
    simpa [extractCore, ho, hu] using this
  | outputList d o ho hgo =>
    have := outPart_good o hgo
    simpa [extractCore, ho, unwrapOut] using this

/-- **C2**: for every upstream response shape enumerated in §4.1,
`_extract_response` terminates normally — it never raises — and
returns a string (possibly empty, never `None`). -/
theorem c2_extraction_never_raises (v : PyVal) (h : SupportedShape v) :
    ∃ s, extract_response v = .ok (.str s) := by
  cases h with
  | base _ hg =>
    cases hg with
    | str s => exact ⟨s, rfl⟩
    | noOutput d h0 =>
      simpa [extract_response] using extractCore_good _ (GoodResult.noOutput d h0)
    | output d o ho hgo =>
      simpa [extract_response] using extractCore_good _ (GoodResult.output d o ho hgo)
    | outputList d o ho hgo =>
      simpa [extract_response] using extractCore_good _ (GoodResult.outputList d o ho hgo)
  | wrap _ hg =>
    simpa [extract_response] using extractCore_good _ hg

/-- C2 witness: the §4.1 example shape
`{"output": {"choices": [{"tokens": ["hello world"]}]}}` is supported
and extraction yields a string on it. -/
theorem c2_extraction_never_raises_witness :
    ∃ s, extract_response (.dict (.cons "output" (.dict (.cons "choices"
        (.list (.cons (.dict (.cons "tokens" (.list (.cons (.str "hello world") .nil)) .nil))
          .nil)) .nil)) .nil)) = .ok (.str s) :=
  c2_extraction_never_raises _
    (SupportedShape.base _ (GoodResult.output _ _ rfl
      (GoodOut.dict _ (GoodOutDict.choices _ _ _ rfl
        (GoodChoice.tokens _ "hello world" .nil rfl)))))

/-!  Claim C7: usage extraction. -/

/-- Prepend an optional integer entry to a usage dict. -/
def optUsageEntry (k : String) (v : Option Int) (rest : PyDict) : PyDict :=
  match v with
  | some n => .cons k (.int n) rest
  | Option.none => rest

/-- A RunPod result whose output dict carries a usage dict with the
optional integer fields `input`, `output`, `prompt_tokens`,
`completion_tokens`, `total_tokens` (in that entry order). -/
def mkUsageResult (i o p c t : Option Int) : PyVal :=
  .dict (.cons "output" (.dict (.cons "usage" (.dict
    (optUsageEntry "input" i
      (optUsageEntry "output" o
        (optUsageEntry "prompt_tokens" p
          (optUsageEntry "completion_tokens" c
            (optUsageEntry "total_tokens" t .nil)))))) .nil)) .nil)

/-- An optional integer as a Python value (`None` when absent). -/
def optInt : Option Int → PyVal
  | some w => .int w
  | Option.none => .none

/-- The per-side reported value: the `input`/`output` alias wins
whenever it is present and nonzero; otherwise the explicit
`prompt_tokens`/`completion_tokens` value (or `None`). -/
def sideVal (al ex : Option Int) : PyVal :=
  match al with
  | some v => if v = 0 then optInt ex else .int v
  | Option.none => optInt ex

/-- The per-side contribution to the computed total, treating missing
values as zero. -/
def totSide (al ex : Option Int) : Int :=
  match al with
  | some v => if v = 0 then ex.getD 0 else v
  | Option.none => ex.getD 0

/-- C7 (counterexample): on a usage dict carrying both `input: 5` and
`prompt_tokens: 7`, extraction reports `prompt_tokens = 5` — the
`input` ALIAS is preferred, not the explicit `prompt_tokens` key as
the claim states (preferring the explicit key would give 7). -/
theorem c7_usage_counterexample :
    extract_usage (mkUsageResult (some 5) Option.none (some 7) Option.none Option.none) =
      .ok (.dict (.cons "prompt_tokens" (.int 5) (.cons "completion_tokens" .none
        (.cons "total_tokens" (.int 5) .nil)))) ∧
    (5 : Int) ≠ 7 :=
  ⟨rfl, by decide⟩

/-- **C7** (amended): for every RunPod result whose output dict
carries a (nonempty) usage dict with integer fields, extraction
prefers the `input`/`output` ALIASES, falling back to the explicit
`prompt_tokens`/`completion_tokens` keys when the alias is absent or
zero (Python truthiness), and ALWAYS computes `total_tokens` as the
sum of the prompt-side and completion-side values — ignoring any
upstream `total_tokens` — treating missing values as zero. -/
theorem c7_usage_extraction (i o p c t : Option Int)
    (h : ¬(i = Option.none ∧ o = Option.none ∧ p = Option.none ∧
           c = Option.none ∧ t = Option.none)) :
    extract_usage (mkUsageResult i o p c t) =
      .ok (.dict (.cons "prompt_tokens" (sideVal i p)
        (.cons "completion_tokens" (sideVal o c)
          (.cons "total_tokens" (.int (totSide i p + totSide o c)) .nil)))) := by
  rcases i with _ | vi
  · rcases o with _ | vo
    · rcases p with _ | vp <;> rcases c with _ | vc <;> rcases t with _ | vt
      · exact absurd ⟨rfl, rfl, rfl, rfl, rfl⟩ h
      all_goals
        simp [extract_usage, mkUsageResult, optUsageEntry, unwrapOut, getEntry,
          usageFields, pyOrGet, pyGet, pyTruthy, pyAdd, sideVal, totSide, optInt]
    · rcases p with _ | vp <;> rcases c with _ | vc <;> rcases t with _ | vt <;>
        rcases eq_or_ne vo 0 with hvo | hvo <;>
        simp [extract_usage, mkUsageResult, optUsageEntry, unwrapOut, getEntry,
          usageFields, pyOrGet, pyGet, pyTruthy, pyAdd, sideVal, totSide, optInt, hvo]
  · rcases o with _ | vo
    · rcases p with _ | vp <;> rcases c with _ | vc <;> rcases t with _ | vt <;>
        rcases eq_or_ne vi 0 with hvi | hvi <;>
        simp [extract_usage, mkUsageResult, optUsageEntry, unwrapOut, getEntry,
          usageFields, pyOrGet, pyGet, pyTruthy, pyAdd, sideVal, totSide, optInt, hvi]
    · rcases p with _ | vp <;> rcases c with _ | vc <;> rcases t with _ | vt <;>
        rcases eq_or_ne vi 0 with hvi | hvi <;> rcases eq_or_ne vo 0 with hvo | hvo <;>
        simp [extract_usage, mkUsageResult, optUsageEntry, unwrapOut, getEntry,
          usageFields, pyOrGet, pyGet, pyTruthy, pyAdd, sideVal, totSide, optInt, hvi, hvo]

/-- C7 amended-theorem witness: with only the aliases present
(`input: 3`, `output: 4`) extraction reports prompt 3, completion 4,
total 7. -/
theorem c7_usage_extraction_witness :
    extract_usage (mkUsageResult (some 3) (some 4) Option.none Option.none Option.none) =
      .ok (.dict (.cons "prompt_tokens" (sideVal (some 3) Option.none)
        (.cons "completion_tokens" (sideVal (some 4) Option.none)
          (.cons "total_tokens"
            (.int (totSide (some 3) Option.none + totSide (some 4) Option.none)) .nil)))) :=
  c7_usage_extraction (some 3) (some 4) Option.none Option.none Option.none (by simp)

/-!  Claim C6: reasoning-tag stripping (`clean_response`, chat.py
lines 19-24). -/

/-- The opening reasoning tag (7 characters). -/
def openTag : List Char := "<think>".data

/-- The closing reasoning tag (8 characters). -/
def closeTag : List Char := "</think>".data

/-- Fueled single left-to-right regex pass removing every
non-overlapping leftmost-shortest span from an opener to the next
closer, exactly as `re.sub` with a lazy pattern and DOTALL scans;
fuel `cs.length` always suffices. -/
def subThinkF : Nat → List Char → List Char
  | 0, cs => cs
  | _ + 1, [] => []
  | fuel + 1, c :: rest =>
    if (c :: rest).take 7 = openTag then
      match splitFirst closeTag ((c :: rest).drop 7) with
      | some (_, post) => subThinkF fuel post
      | Option.none => c :: subThinkF fuel rest
    else c :: subThinkF fuel rest

/-- One `re.sub` pass over the whole string. -/
def subThink (cs : List Char) : List Char := subThinkF cs.length cs

/-- Does the text contain a matchable pair: an opener occurrence with
a closer starting at or after its end?  (This is exactly when the
regex matches somewhere.) -/
def hasPair : List Char → Bool
  | [] => false
  | c :: rest =>
    if (c :: rest).take 7 = openTag then
      ((splitFirst closeTag ((c :: rest).drop 7)).isSome || hasPair rest)
    else hasPair rest

/-- `hasPair` on a string. -/
def hasPairStr (s : String) : Bool := hasPair s.data

/-- The characters Python `str.strip()` removes. -/
def isPySpace (c : Char) : Bool :=
  c == ' ' || c == Char.ofNat 9 || c == Char.ofNat 10 || c == Char.ofNat 11 ||
  c == Char.ofNat 12 || c == Char.ofNat 13

/-- Python `str.strip()`. -/
def pyStrip (cs : List Char) : List Char :=
  ((cs.dropWhile isPySpace).reverse.dropWhile isPySpace).reverse

/-- `clean_response` (chat.py lines 19-24): falsy (empty) strings are
returned unchanged, otherwise one regex pass then `strip()`. -/
def clean_response (s : String) : String :=
  if s.data = [] then s
  else String.mk (pyStrip (subThink s.data))

theorem subThinkF_noPair : ∀ (fuel : Nat) (cs : List Char), cs.length ≤ fuel →
    hasPair cs = false → subThinkF fuel cs = cs := by
  intro fuel
  induction fuel with
  | zero => intro cs _ _; rfl
  | succ n ih =>
    intro cs hlen hp
    cases cs with
    | nil => rfl
    | cons c rest =>
      simp only [subThinkF]
      simp only [hasPair] at hp
      by_cases hop : (c :: rest).take 7 = openTag
      · rw [if_pos hop]
        rw [if_pos hop] at hp
        simp only [Bool.or_eq_false_iff] at hp
        obtain ⟨h1, h2⟩ := hp
        cases hsp : splitFirst closeTag ((c :: rest).drop 7) with
        | some pq => rw [hsp] at h1; simp at h1
        | none =>
          have hr : rest.length ≤ n := by
            simp only [List.length_cons] at hlen; omega
          show c :: subThinkF n rest = c :: rest
          rw [ih rest hr h2]
      · rw [if_neg hop]
        rw [if_neg hop] at hp
        have hr : rest.length ≤ n := by
          simp only [List.length_cons] at hlen; omega
        rw [ih rest hr hp]

theorem subThink_noPair (cs : List Char) (hp : hasPair cs = false) :
    subThink cs = cs :=
  subThinkF_noPair cs.length cs (Nat.le_refl _) hp

theorem dropWhile_dropWhile (p : Char → Bool) (l : List Char) :
    (l.dropWhile p).dropWhile p = l.dropWhile p := by
  induction l with
  | nil => rfl
  | cons c rest ih =>
    by_cases h : p c
    · simp [List.dropWhile_cons, h, ih]
    · simp [List.dropWhile_cons, h]

theorem dropWhile_of_append (p : Char → Bool) (b tail : List Char)
    (h : (b ++ tail).dropWhile p = b ++ tail) : b.dropWhile p = b := by
  cases b with
  | nil => rfl
  | cons c rest =>
    have hc : p c = false := by
      by_cases hc' : p c = true
      · exfalso
        rw [List.cons_append, List.dropWhile_cons, if_pos hc'] at h
        have hle := (List.dropWhile_suffix (l := rest ++ tail) p).length_le
        rw [h] at hle
        simp at hle
      · simpa using hc'
    simp [List.dropWhile_cons, hc]

theorem pyStrip_idem (cs : List Char) : pyStrip (pyStrip cs) = pyStrip cs := by
  unfold pyStrip
  have haa : (cs.dropWhile isPySpace).dropWhile isPySpace = cs.dropWhile isPySpace :=
    dropWhile_dropWhile _ _
  have hsplit : cs.dropWhile isPySpace =
      ((cs.dropWhile isPySpace).reverse.dropWhile isPySpace).reverse ++
        ((cs.dropWhile isPySpace).reverse.takeWhile isPySpace).reverse := by
    calc cs.dropWhile isPySpace
        = (cs.dropWhile isPySpace).reverse.reverse := by rw [List.reverse_reverse]
      _ = ((cs.dropWhile isPySpace).reverse.takeWhile isPySpace ++
            (cs.dropWhile isPySpace).reverse.dropWhile isPySpace).reverse := by
            rw [List.takeWhile_append_dropWhile]
      _ = ((cs.dropWhile isPySpace).reverse.dropWhile isPySpace).reverse ++
            ((cs.dropWhile isPySpace).reverse.takeWhile isPySpace).reverse := by
            rw [List.reverse_append]
  have hb : (((cs.dropWhile isPySpace).reverse.dropWhile isPySpace).reverse).dropWhile isPySpace =
      ((cs.dropWhile isPySpace).reverse.dropWhile isPySpace).reverse := by
    apply dropWhile_of_append isPySpace _
      (((cs.dropWhile isPySpace).reverse.takeWhile isPySpace).reverse)
    rw [← hsplit]
    exact haa
  rw [hb, List.reverse_reverse, dropWhile_dropWhile]

/-- C6 (counterexample): removal of a tag span can splice the
surrounding text into a NEW tag pair, so a second application strips
more: on `"<thi<think>a</think>nk>b</think>"` one pass yields
`"<think>b</think>"` and a second pass yields `""` — `clean_response`
is not idempotent. -/
theorem c6_clean_counterexample :
    clean_response (clean_response (String.mk
      ("<thi".data ++ "<think>a</think>".data ++ "nk>b</think>".data))) ≠
    clean_response (String.mk
      ("<thi".data ++ "<think>a</think>".data ++ "nk>b</think>".data)) := by
  decide

/-- **C6** (amended): `clean_response` is idempotent on every string
whose cleaned result contains no remaining matchable tag pair (tag
removal can splice adjacent fragments into a new pair, in which case
a second application strips further); and a string with no complete
(opener-then-closer) pair — in particular one with only unmatched or
unclosed tags — is changed only by whitespace trimming, with no
partial deletion of the tag text. -/
theorem c6_clean_response (s : String) :
    (hasPairStr (clean_response s) = false →
      clean_response (clean_response s) = clean_response s) ∧
    (hasPairStr s = false → clean_response s = String.mk (pyStrip s.data)) := by
  constructor
  · intro h
    by_cases hs : s.data = []
    · have h1 : clean_response s = s := by
        unfold clean_response
        rw [if_pos hs]
      rw [h1]
      unfold clean_response
      rw [if_pos hs]
    · have h1 : clean_response s = String.mk (pyStrip (subThink s.data)) := by
        unfold clean_response
        rw [if_neg hs]
      rw [h1] at h ⊢
      unfold clean_response
      by_cases h2 : (String.mk (pyStrip (subThink s.data))).data = []
      · rw [if_pos h2]
      · rw [if_neg h2]
        have hdata : (String.mk (pyStrip (subThink s.data))).data =
            pyStrip (subThink s.data) := rfl
        rw [hdata]
        unfold hasPairStr at h
        rw [hdata] at h
        rw [subThink_noPair _ h, pyStrip_idem]
  · intro h
    unfold clean_response
    by_cases hs : s.data = []
    · rw [if_pos hs]
      cases s with
      | mk data =>
        simp only at hs
        subst hs
        rfl
    · rw [if_neg hs]
      unfold hasPairStr at h
      rw [subThink_noPair _ h]

/-- C6 witness: on `"a <think>x</think> b"` (whose cleaned form has no
remaining pair) cleaning twice equals cleaning once, and the
unclosed-tag string `" <think>unclosed"` is changed only by
whitespace trimming. -/
theorem c6_clean_response_witness :
    clean_response (clean_response "a <think>x</think> b") =
      clean_response "a <think>x</think> b" ∧
    clean_response " <think>unclosed" =
      String.mk (pyStrip (" <think>unclosed").data) :=
  ⟨(c6_clean_response "a <think>x</think> b").1 (by decide),
   (c6_clean_response " <think>unclosed").2 (by decide)⟩

/-!  The Redis service model (redis_service.py) and claims C3/C4. -/

/-- A chat message as stored in conversation history. -/
structure Msg where
  role : String
  content : String
deriving DecidableEq, Repr

/-- The external Upstash store state: rate counters, their TTLs, and
conversation transcripts.  The real store is one string keyspace; the
three maps have disjoint key prefixes in the source
(`rate:`/`conv:`), so splitting them is faithful. -/
structure RedisBackend where
  counters : List (String × Nat)
  ttl : List (String × Nat)
  convs : List (String × List Msg)
deriving DecidableEq, Repr

/-- First-match lookup in a string-keyed association list. -/
def lookupKey {α : Type} : List (String × α) → String → Option α
  | [], _ => Option.none
  | (k2, v) :: rest, k => if k2 = k then some v else lookupKey rest k

/-- Overwrite-or-append update of a string-keyed association list. -/
def setKey {α : Type} : List (String × α) → String → α → List (String × α)
  | [], k, v => [(k, v)]
  | (k2, v2) :: rest, k, v =>
    if k2 = k then (k, v) :: rest else (k2, v2) :: setKey rest k v

theorem lookupKey_setKey_self {α : Type} (l : List (String × α)) (k : String) (v : α) :
    lookupKey (setKey l k v) k = some v := by
  induction l with
  | nil => simp [setKey, lookupKey]
  | cons kv rest ih =>
    obtain ⟨k2, v2⟩ := kv
    by_cases h : k2 = k
    · simp [setKey, h, lookupKey]
    · simp [setKey, h, lookupKey, ih]

/-- `RedisService.get` on a counter key: `_execute` returns `None`
when the client/token is unconfigured (`cfg`) or the REST call fails
(`rch`); otherwise the stored value. -/
def redis_get_count (cfg rch : Bool) (st : RedisBackend) (key : String) : Option Nat :=
  if cfg && rch then lookupKey st.counters key else Option.none

/-- `RedisService.incr`: atomic `INCR` (0 for a missing key), `None`
and no state change on an unconfigured/unreachable store. -/
def redis_incr (cfg rch : Bool) (st : RedisBackend) (key : String) :
    Option Nat × RedisBackend :=
  if cfg && rch then
    let n := (lookupKey st.counters key).getD 0 + 1
    (some n, { st with counters := setKey st.counters key n })
  else (Option.none, st)

/-- `RedisService.expire`: attach a TTL to a key (no-op on an
unconfigured/unreachable store; the boolean result is ignored by the
caller). -/
def redis_expire (cfg rch : Bool) (st : RedisBackend) (key : String) (secs : Nat) :
    RedisBackend :=
  if cfg && rch then { st with ttl := setKey st.ttl key secs } else st

/-- Python `a or b` on an optional count (`None` and `0` are falsy). -/
def pyOrNat (a : Option Nat) (b : Nat) : Nat :=
  match a with
  | some n => if n = 0 then b else n
  | Option.none => b

/-- `RedisService.check_rate_limit` (redis_service.py lines 103-127):
returns `((is_allowed, current_count), new store state)`.  With no
client/token it fails open as `(True, 0)`; otherwise it reads the
count, rejects without incrementing at the limit, else increments and
— only when the pre-increment count was zero — attaches the window
expiry. -/
def check_rate_limit (cfg rch : Bool) (st : RedisBackend) (key : String)
    (limit window : Nat) : (Bool × Nat) × RedisBackend :=
  if !cfg then ((true, 0), st)
  else
    let count := (redis_get_count cfg rch st key).getD 0
    if limit ≤ count then ((false, count), st)
    else
      let incRes := redis_incr cfg rch st key
      let st2 := if count = 0 then redis_expire cfg rch incRes.2 key window else incRes.2
      ((true, pyOrNat incRes.1 (count + 1)), st2)

/-- **C3**: on a working store, a rate-limit check with pre-call
stored count `c` and limit `L` admits and bumps the stored count to
`c + 1` (reporting `c + 1`) when `c < L`, and rejects without any
state change, reporting the count as-is, when `L ≤ c`. -/
theorem c3_rate_limit_check (st : RedisBackend) (key : String) (L w c : Nat)
    (hc : c = (lookupKey st.counters key).getD 0) :
    (c < L →
      (check_rate_limit true true st key L w).1 = (true, c + 1) ∧
      (lookupKey (check_rate_limit true true st key L w).2.counters key).getD 0 = c + 1) ∧
    (L ≤ c →
      (check_rate_limit true true st key L w).1 = (false, c) ∧
      (check_rate_limit true true st key L w).2 = st) := by
  subst hc
  constructor
  · intro hlt
    have hnot : ¬ (L ≤ (lookupKey st.counters key).getD 0) := by omega
    have hL0 : ¬ (L = 0) := by omega
    by_cases h0 : (lookupKey st.counters key).getD 0 = 0 <;>
      constructor <;>
        simp [check_rate_limit, redis_get_count, redis_incr, redis_expire, pyOrNat,
          hnot, h0, hL0, lookupKey_setKey_self]
  · intro hge
    constructor <;>
      simp [check_rate_limit, redis_get_count, hge]

/-- C3 witness: at stored count 3 with limit 60 the call admits and
the stored count becomes 4; at stored count 60 it rejects, reports
60, and leaves the store untouched. -/
theorem c3_rate_limit_check_witness :
    ((check_rate_limit true true ⟨[("rate:u1", 3)], [], []⟩ "rate:u1" 60 60).1 = (true, 4) ∧
      (lookupKey (check_rate_limit true true ⟨[("rate:u1", 3)], [], []⟩
        "rate:u1" 60 60).2.counters "rate:u1").getD 0 = 4) ∧
    ((check_rate_limit true true ⟨[("rate:u1", 60)], [], []⟩ "rate:u1" 60 60).1 = (false, 60) ∧
      (check_rate_limit true true ⟨[("rate:u1", 60)], [], []⟩ "rate:u1" 60 60).2 =
        ⟨[("rate:u1", 60)], [], []⟩) :=
  ⟨(c3_rate_limit_check ⟨[("rate:u1", 3)], [], []⟩ "rate:u1" 60 60 3 (by decide)).1
      (by decide),
   (c3_rate_limit_check ⟨[("rate:u1", 60)], [], []⟩ "rate:u1" 60 60 60 (by decide)).2
      (by decide)⟩

/-- **C4**: on a working store, the window expiry is attached only on
the call whose pre-increment count was zero: a call with a nonzero
pre-call count leaves the TTL map untouched; a call from count zero
under a positive limit sets the key's TTL to the window; and for any
two sequential calls on the same key, the second call never changes
the TTL map left by the first (so the window's remaining TTL is not
reset). -/
theorem c4_expiry_only_on_first (st : RedisBackend) (key : String) (L w : Nat) :
    ((lookupKey st.counters key).getD 0 ≠ 0 →
      (check_rate_limit true true st key L w).2.ttl = st.ttl) ∧
    ((lookupKey st.counters key).getD 0 = 0 → 0 < L →
      lookupKey (check_rate_limit true true st key L w).2.ttl key = some w) ∧
    (check_rate_limit true true (check_rate_limit true true st key L w).2 key L w).2.ttl =
      (check_rate_limit true true st key L w).2.ttl := by
  refine ⟨?_, ?_, ?_⟩
  · intro h0
    by_cases hL : L ≤ (lookupKey st.counters key).getD 0 <;>
      simp [check_rate_limit, redis_get_count, redis_incr, redis_expire, h0, hL]
  · intro h0 hL
    have hnot : ¬ (L ≤ (lookupKey st.counters key).getD 0) := by omega
    have hL0 : ¬ (L = 0) := by omega
    simp [check_rate_limit, redis_get_count, redis_incr, redis_expire, pyOrNat,
      h0, hnot, hL0, lookupKey_setKey_self]
  · by_cases hL : L ≤ (lookupKey st.counters key).getD 0
    · simp [check_rate_limit, redis_get_count, hL]
    · have hL0 : ¬ (L = 0) := by omega
      by_cases h0 : (lookupKey st.counters key).getD 0 = 0
      · by_cases hL2 : L ≤ 1 <;>
          simp [check_rate_limit, redis_get_count, redis_incr, redis_expire, pyOrNat,
            h0, hL, hL2, hL0, lookupKey_setKey_self]
      · by_cases hL2 : L ≤ (lookupKey st.counters key).getD 0 + 1 <;>
          simp [check_rate_limit, redis_get_count, redis_incr, redis_expire, pyOrNat,
            h0, hL, hL2, hL0, lookupKey_setKey_self]

/-- C4 witness: from count 5 the TTL map is untouched; from count 0
the TTL becomes the window; a second call after a first never changes
the TTL map the first call left. -/
theorem c4_expiry_only_on_first_witness :
    (check_rate_limit true true ⟨[("rate:u1", 5)], [("rate:u1", 17)], []⟩
        "rate:u1" 60 60).2.ttl = [("rate:u1", 17)] ∧
    lookupKey (check_rate_limit true true ⟨[], [], []⟩ "rate:u1" 60 60).2.ttl
        "rate:u1" = some 60 :=
  ⟨(c4_expiry_only_on_first ⟨[("rate:u1", 5)], [("rate:u1", 17)], []⟩
      "rate:u1" 60 60).1 (by decide),
   ((c4_expiry_only_on_first ⟨[], [], []⟩ "rate:u1" 60 60).2.1 (by decide) (by decide))⟩

/-!  The `/chat` endpoint handler (chat.py lines 62-183) and claims
C5, C8, C9, C10. -/

/-- The LLM model enum (llm_service.py lines 15-18). -/
inductive LLMModel where
  | llama3
  | nemotron
  | groq
deriving DecidableEq, Repr

/-- A `/chat` request body (chat.py lines 35-42).  `max_tokens`,
`temperature` and `conversation_id` are passed through without
influencing any decision the claims mention, and are not modelled. -/
structure ChatReq where
  message : String
  model : Option String
  system_prompt : Option String
  use_history : Bool
deriving DecidableEq, Repr

/-- Environment of one `/chat` request's external collaborators:
Redis configuration and reachability, Firestore presence (`db` not
`None`) with injected write failures (the exception text when the
write raises), and the upstream LLM call outcome as a function of the
message list sent. -/
structure ChatEnv where
  redisCfg : Bool
  redisUp : Bool
  fsDb : Bool
  fsSaveErr : Option String
  fsLogErr : Option String
  llm : List Msg → Except String String

/-- The caller-visible outcome of one `/chat` request. -/
inductive ChatOutcome where
  | ok (response : String) (conversation_id : Option String)
  | rateLimited (detail : String)
  | serverError (detail : String)
  | unhandled (err : String)
deriving DecidableEq, Repr

/-- An `api_logs` document (firestore_service.log_request). -/
structure LogDoc where
  userId : String
  endpoint : String
  model : String
  success : Bool
  error : Option String
deriving DecidableEq, Repr

/-- A `chat_history` document (firestore_service.save_chat_message). -/
structure ChatDoc where
  userId : String
  message : String
  response : String
  model : String
deriving DecidableEq, Repr

/-- Everything externally observable about one `/chat` request:
the resolved identity and rate key, the model and messages dispatched
upstream (`none` when no upstream call was made), the final Redis
state, the Firestore documents written, and the outcome. -/
structure ChatTrace where
  user_id : String
  rateKey : String
  dispatched : Option LLMModel
  upstream : Option (List Msg)
  redis : RedisBackend
  chatDocs : List ChatDoc
  logDocs : List LogDoc
  outcome : ChatOutcome
deriving DecidableEq, Repr

/-- Python `x_user_id or "anonymous"` (an absent or empty header is
falsy). -/
def pyOrStr (a : Option String) (b : String) : String :=
  match a with
  | some s => if s = "" then b else s
  | Option.none => b

/-- The optional system message (`if request.system_prompt:` — an
empty string is falsy and skipped). -/
def sysMsgs (req : ChatReq) : List Msg :=
  match req.system_prompt with
  | some sp => if sp = "" then [] else [⟨"system", sp⟩]
  | Option.none => []

/-- Python `history[-20:]`. -/
def takeLast (n : Nat) (l : List Msg) : List Msg := l.drop (l.length - n)

/-- `RedisService.get_conversation`: the stored transcript, `[]` when
absent or when the store is unconfigured/unreachable. -/
def get_conversation (cfg rch : Bool) (st : RedisBackend) (uid : String) : List Msg :=
  if cfg && rch then (lookupKey st.convs ("conv:" ++ uid)).getD [] else []

/-- `RedisService.save_conversation` (the conversation key's TTL is
not modelled; no claim mentions it).  Returns the new store and the
success flag the caller ignores. -/
def save_conversation (cfg rch : Bool) (st : RedisBackend) (uid : String)
    (msgs : List Msg) : RedisBackend × Bool :=
  if cfg && rch then
    ({ st with convs := setKey st.convs ("conv:" ++ uid) msgs }, true)
  else (st, false)

/-- The handler's `except Exception` branch (chat.py lines 168-183):
one `log_request(success=False)` write — which itself raises when
Firestore is configured and failing, escaping the handler — then
HTTP 500. -/
def exceptPath (env : ChatEnv) (uid e : String) (ups : Option (List Msg))
    (st : RedisBackend) (docs : List ChatDoc) : ChatTrace :=
  if env.fsDb then
    match env.fsLogErr with
    | some e2 =>
      { user_id := uid, rateKey := "rate:" ++ uid, dispatched := some .llama3,
        upstream := ups, redis := st, chatDocs := docs, logDocs := [],
        outcome := .unhandled e2 }
    | Option.none =>
      { user_id := uid, rateKey := "rate:" ++ uid, dispatched := some .llama3,
        upstream := ups, redis := st, chatDocs := docs,
        logDocs := [⟨uid, "/api/chat", "llama3", false, some e⟩],
        outcome := .serverError ("Error generating response: " ++ e) }
  else
    { user_id := uid, rateKey := "rate:" ++ uid, dispatched := some .llama3,
      upstream := ups, redis := st, chatDocs := docs, logDocs := [],
      outcome := .serverError ("Error generating response: " ++ e) }

/-- The success-path tail (chat.py lines 149-166): the
`log_request(success=True)` write — when it raises, the except branch
retries the log write, which raises again and escapes — then the 200
response. -/
def finishPath (env : ChatEnv) (uid response_text : String) (useHist : Bool)
    (ups : Option (List Msg)) (st : RedisBackend) (docs : List ChatDoc) : ChatTrace :=
  if env.fsDb then
    match env.fsLogErr with
    | some e2 =>
      { user_id := uid, rateKey := "rate:" ++ uid, dispatched := some .llama3,
        upstream := ups, redis := st, chatDocs := docs, logDocs := [],
        outcome := .unhandled e2 }
    | Option.none =>
      { user_id := uid, rateKey := "rate:" ++ uid, dispatched := some .llama3,
        upstream := ups, redis := st, chatDocs := docs,
        logDocs := [⟨uid, "/api/chat", "llama3", true, Option.none⟩],
        outcome := .ok response_text (if useHist then some uid else Option.none) }
  else
    { user_id := uid, rateKey := "rate:" ++ uid, dispatched := some .llama3,
      upstream := ups, redis := st, chatDocs := docs, logDocs := [],
      outcome := .ok response_text (if useHist then some uid else Option.none) }

/-- The `/chat` handler (chat.py lines 62-183): resolve the identity,
rate-check, assemble system prompt + last 20 history messages + the
new user message, call the LLM, clean the response, save the
transcript, write the Firestore documents, and answer — with the
single `try/except` of the source deciding which failures reach the
caller.  Note line 74 hardcodes `model = LLMModel.LLAMA3`; the
request's `model` field is never read. -/
def chat_handler (env : ChatEnv) (st : RedisBackend) (req : ChatReq)
    (x_user_id : Option String) : ChatTrace :=
  let user_id := pyOrStr x_user_id "anonymous"
  let rlRes := check_rate_limit env.redisCfg env.redisUp st ("rate:" ++ user_id) 60 60
  match rlRes.1.1 with
  | false =>
    { user_id := user_id, rateKey := "rate:" ++ user_id, dispatched := Option.none,
      upstream := Option.none, redis := rlRes.2, chatDocs := [], logDocs := [],
      outcome := .rateLimited
        "Rate limit exceeded. Please wait before sending more messages." }
  | true =>
    let history := if req.use_history && !(user_id == "anonymous")
      then get_conversation env.redisCfg env.redisUp rlRes.2 user_id else []
    let messages := sysMsgs req ++ takeLast 20 history ++ [⟨"user", req.message⟩]
    match env.llm messages with
    | .error e => exceptPath env user_id e (some messages) rlRes.2 []
    | .ok raw =>
      let response_text := clean_response raw
      let st2 := if req.use_history && !(user_id == "anonymous")
        then (save_conversation env.redisCfg env.redisUp rlRes.2 user_id
          (history ++ [⟨"user", req.message⟩, ⟨"assistant", response_text⟩])).1
        else rlRes.2
      if !(user_id == "anonymous") && env.fsDb then
        match env.fsSaveErr with
        | some e => exceptPath env user_id e (some messages) st2 []
        | Option.none =>
          finishPath env user_id response_text req.use_history (some messages) st2
            [⟨user_id, req.message, response_text, "llama3"⟩]
      else
        finishPath env user_id response_text req.use_history (some messages) st2 []

/-- `LLMModel(value)`: the enum member with that value, if any. -/
def parseModel : String → Option LLMModel
  | "llama3" => some .llama3
  | "nemotron" => some .nemotron
  | "groq" => some .groq
  | _ => Option.none

/-- The `/chat/complete` model selection (chat.py lines 197-201):
`LLMModel(request.model.lower()) if request.model else LLMModel.LLAMA3`,
with `except ValueError` falling back to llama3. -/
def complete_model (m : Option String) : LLMModel :=
  match m with
  | Option.none => .llama3
  | some s => if s = "" then .llama3 else (parseModel s.toLower).getD .llama3

theorem check_rate_limit_convs (cfg rch : Bool) (st : RedisBackend) (key : String)
    (L w : Nat) : (check_rate_limit cfg rch st key L w).2.convs = st.convs := by
  unfold check_rate_limit redis_incr redis_expire redis_get_count
  repeat' split <;> simp_all

theorem exceptPath_proj (env : ChatEnv) (uid e : String) (ups : Option (List Msg))
    (st : RedisBackend) (docs : List ChatDoc) :
    (exceptPath env uid e ups st docs).user_id = uid ∧
    (exceptPath env uid e ups st docs).rateKey = "rate:" ++ uid ∧
    (exceptPath env uid e ups st docs).dispatched = some LLMModel.llama3 ∧
    (exceptPath env uid e ups st docs).upstream = ups ∧
    (exceptPath env uid e ups st docs).redis = st ∧
    (exceptPath env uid e ups st docs).chatDocs = docs := by
  unfold exceptPath
  cases hdb : env.fsDb <;> cases hl : env.fsLogErr <;> simp [hdb, hl]

theorem exceptPath_fail (env : ChatEnv) (uid e : String) (ups : Option (List Msg))
    (st : RedisBackend) (docs : List ChatDoc) (hdb : env.fsDb = true)
    (hl : env.fsLogErr = Option.none) :
    (exceptPath env uid e ups st docs).logDocs =
      [⟨uid, "/api/chat", "llama3", false, some e⟩] ∧
    (exceptPath env uid e ups st docs).outcome =
      .serverError ("Error generating response: " ++ e) := by
  unfold exceptPath
  simp [hdb, hl]

theorem finishPath_proj (env : ChatEnv) (uid r : String) (useHist : Bool)
    (ups : Option (List Msg)) (st : RedisBackend) (docs : List ChatDoc) :
    (finishPath env uid r useHist ups st docs).user_id = uid ∧
    (finishPath env uid r useHist ups st docs).rateKey = "rate:" ++ uid ∧
    (finishPath env uid r useHist ups st docs).dispatched = some LLMModel.llama3 ∧
    (finishPath env uid r useHist ups st docs).upstream = ups ∧
    (finishPath env uid r useHist ups st docs).redis = st ∧
    (finishPath env uid r useHist ups st docs).chatDocs = docs := by
  unfold finishPath
  cases hdb : env.fsDb <;> cases hl : env.fsLogErr <;> simp [hdb, hl]

theorem finishPath_ok (env : ChatEnv) (uid r : String) (useHist : Bool)
    (ups : Option (List Msg)) (st : RedisBackend) (docs : List ChatDoc)
    (hfs : env.fsDb = false ∨ env.fsLogErr = Option.none) :
    (finishPath env uid r useHist ups st docs).outcome =
      .ok r (if useHist then some uid else Option.none) := by
  unfold finishPath
  rcases hfs with h | h
  · simp [h]
  · cases hdb : env.fsDb <;> simp [hdb, h]

theorem finishPath_logDocs (env : ChatEnv) (uid r : String) (useHist : Bool)
    (ups : Option (List Msg)) (st : RedisBackend) (docs : List ChatDoc)
    (hdb : env.fsDb = true) (hl : env.fsLogErr = Option.none) :
    (finishPath env uid r useHist ups st docs).logDocs =
      [⟨uid, "/api/chat", "llama3", true, Option.none⟩] := by
  unfold finishPath
  simp [hdb, hl]

/-- **C9**: `/chat` ignores the caller's model selector entirely —
the handler's trace is unchanged under any value of the request's
`model` field, and whenever it dispatches upstream it dispatches
llama3 — while only `/chat/complete` parses the selector, falling
back to llama3 on an absent, empty or unrecognized value instead of
failing. -/
theorem c9_model_selection :
    (∀ (env : ChatEnv) (st : RedisBackend) (req : ChatReq) (uid m1 m2 : Option String),
      chat_handler env st { req with model := m1 } uid =
        chat_handler env st { req with model := m2 } uid) ∧
    (∀ (env : ChatEnv) (st : RedisBackend) (req : ChatReq) (uid : Option String),
      (chat_handler env st req uid).dispatched = some LLMModel.llama3 ∨
        (chat_handler env st req uid).dispatched = Option.none) ∧
    complete_model Option.none = LLMModel.llama3 ∧
    (∀ s, complete_model (some s) = LLMModel.llama3 ∨
      parseModel s.toLower = some (complete_model (some s))) := by
  refine ⟨?_, ?_, rfl, ?_⟩
  · intro env st req uid m1 m2
    rfl
  · intro env st req uid
    unfold chat_handler
    dsimp only
    split
    · right; rfl
    · split
      · left; exact (exceptPath_proj _ _ _ _ _ _).2.2.1
      · split
        · split
          · left; exact (exceptPath_proj _ _ _ _ _ _).2.2.1
          · left; exact (finishPath_proj _ _ _ _ _ _ _).2.2.1
        · left; exact (finishPath_proj _ _ _ _ _ _ _).2.2.1
  · intro s
    by_cases h : s = ""
    · left; simp [complete_model, h]
    · cases hp : parseModel s.toLower with
      | none => left; simp [complete_model, h, hp]
      | some m => right; simp [complete_model, h, hp]

/-- **C10** (amended): a request without an `X-User-ID` header gets
the sentinel identity `"anonymous"` and the shared counter key
`rate:anonymous`; conversation history is never loaded (the upstream
messages are just the optional system prompt plus the new user
message) or saved, the exchange is never persisted to `chat_history`;
the outcome log entry is written for every request that reaches the
upstream dispatch (when the document store is configured and the
write itself does not raise) — but a rate-limited request is rejected
before any logging. -/
theorem c10_anonymous_requests (env : ChatEnv) (st : RedisBackend) (req : ChatReq) :
    (chat_handler env st req Option.none).user_id = "anonymous" ∧
    (chat_handler env st req Option.none).rateKey = "rate:anonymous" ∧
    (chat_handler env st req Option.none).redis.convs = st.convs ∧
    ((chat_handler env st req Option.none).upstream = Option.none ∨
      (chat_handler env st req Option.none).upstream =
        some (sysMsgs req ++ [⟨"user", req.message⟩])) ∧
    (chat_handler env st req Option.none).chatDocs = [] ∧
    ((chat_handler env st req Option.none).dispatched = some LLMModel.llama3 →
      env.fsDb = true → env.fsLogErr = Option.none →
      (chat_handler env st req Option.none).logDocs ≠ []) := by
  unfold chat_handler
  dsimp only [pyOrStr]
  simp only [beq_self_eq_true, Bool.not_true, Bool.and_false, Bool.false_and,
    Bool.false_eq_true, if_false, takeLast, List.length_nil, Nat.zero_sub,
    List.drop_nil, List.append_nil]
  refine ⟨?_, ?_, ?_, ?_, ?_, ?_⟩
  · split
    · rfl
    · split
      · exact (exceptPath_proj _ _ _ _ _ _).1
      · exact (finishPath_proj _ _ _ _ _ _ _).1
  · split
    · rfl
    · split
      · exact (exceptPath_proj _ _ _ _ _ _).2.1
      · exact (finishPath_proj _ _ _ _ _ _ _).2.1
  · split
    · exact check_rate_limit_convs _ _ _ _ _ _
    · split
      · rw [(exceptPath_proj _ _ _ _ _ _).2.2.2.2.1]
        exact check_rate_limit_convs _ _ _ _ _ _
      · rw [(finishPath_proj _ _ _ _ _ _ _).2.2.2.2.1]
        exact check_rate_limit_convs _ _ _ _ _ _
  · split
    · left; rfl
    · split
      · right
        exact (exceptPath_proj _ _ _ _ _ _).2.2.2.1
      · right
        exact (finishPath_proj _ _ _ _ _ _ _).2.2.2.1
  · split
    · rfl
    · split
      · exact (exceptPath_proj _ _ _ _ _ _).2.2.2.2.2
      · exact (finishPath_proj _ _ _ _ _ _ _).2.2.2.2.2
  · split
    · intro hd
      exact absurd hd (by simp)
    · split
      · intro _ hdb hl
        rw [(exceptPath_fail _ _ _ _ _ _ hdb hl).1]
        simp
      · intro _ hdb hl
        rw [finishPath_logDocs _ _ _ _ _ _ _ hdb hl]
        simp

/-- C10 (counterexample): an anonymous request that is rate-limited
(counter already at 60) is rejected before any logging — no
request-outcome log entry is written, although the document store is
configured and healthy, contradicting "the request-outcome log entry
is still written" as a property of every header-less request. -/
theorem c10_anonymous_counterexample :
    (chat_handler ⟨true, true, true, Option.none, Option.none, fun _ => .ok "x"⟩
        ⟨[("rate:anonymous", 60)], [], []⟩ ⟨"hi", Option.none, Option.none, false⟩
        Option.none).logDocs = [] ∧
    (chat_handler ⟨true, true, true, Option.none, Option.none, fun _ => .ok "x"⟩
        ⟨[("rate:anonymous", 60)], [], []⟩ ⟨"hi", Option.none, Option.none, false⟩
        Option.none).outcome =
      .rateLimited "Rate limit exceeded. Please wait before sending more messages." :=
  ⟨rfl, rfl⟩

/-- C10 witness: a concrete admitted anonymous request (history
requested but never touched, Firestore configured and healthy): the
exchange is not persisted, yet the outcome log entry is written. -/
theorem c10_anonymous_requests_witness :
    (chat_handler ⟨true, true, true, Option.none, Option.none, fun _ => .ok "pong"⟩
        ⟨[], [], [("conv:anonymous", [⟨"user", "old"⟩])]⟩
        ⟨"hi", Option.none, Option.none, true⟩ Option.none).chatDocs = [] ∧
    (chat_handler ⟨true, true, true, Option.none, Option.none, fun _ => .ok "pong"⟩
        ⟨[], [], [("conv:anonymous", [⟨"user", "old"⟩])]⟩
        ⟨"hi", Option.none, Option.none, true⟩ Option.none).logDocs ≠ [] :=
  ⟨(c10_anonymous_requests _ _ _).2.2.2.2.1,
   (c10_anonymous_requests _ _ _).2.2.2.2.2 rfl rfl rfl⟩

/-- **C5**: a history-enabled chat request from a non-anonymous caller
whose stored transcript holds 30 messages forwards exactly the last 20
stored messages (ahead of the new user message) to the upstream call,
and afterwards the stored transcript holds all 30 original messages
plus the new user message and assistant reply — 32 messages, no
truncation on save. -/
theorem c5_history_window (env : ChatEnv) (st : RedisBackend) (req : ChatReq)
    (u t : String) (h : List Msg)
    (hcfg : env.redisCfg = true) (hup : env.redisUp = true)
    (huse : req.use_history = true)
    (hne : u ≠ "") (hanon : u ≠ "anonymous")
    (hconv : lookupKey st.convs ("conv:" ++ u) = some h)
    (hlen : h.length = 30)
    (hadm : (lookupKey st.counters ("rate:" ++ u)).getD 0 < 60)
    (hllm : env.llm (sysMsgs req ++ h.drop 10 ++ [⟨"user", req.message⟩]) = .ok t)
    (hsave : env.fsSaveErr = Option.none) (hlog : env.fsLogErr = Option.none) :
    (chat_handler env st req (some u)).upstream =
      some (sysMsgs req ++ h.drop 10 ++ [⟨"user", req.message⟩]) ∧
    lookupKey (chat_handler env st req (some u)).redis.convs ("conv:" ++ u) =
      some (h ++ [⟨"user", req.message⟩, ⟨"assistant", clean_response t⟩]) ∧
    (h ++ [(⟨"user", req.message⟩ : Msg), ⟨"assistant", clean_response t⟩]).length = 32 ∧
    (chat_handler env st req (some u)).outcome = .ok (clean_response t) (some u) := by
  have huid : pyOrStr (some u) "anonymous" = u := by simp [pyOrStr, hne]
  have hb : (u == "anonymous") = false := by simp [hanon]
  have hc3 := (c3_rate_limit_check st ("rate:" ++ u) 60 60 _ rfl).1 hadm
  have hfst : (check_rate_limit true true st ("rate:" ++ u) 60 60).1.1 = true := by
    rw [hc3.1]
  have hhist : get_conversation true true
      (check_rate_limit true true st ("rate:" ++ u) 60 60).2 u = h := by
    simp [get_conversation, check_rate_limit_convs, hconv]
  have hdrop : h.length - 20 = 10 := by omega
  have hllm2 : env.llm (sysMsgs req ++ (h.drop 10 ++ [⟨"user", req.message⟩])) = .ok t := by
    simpa using hllm
  have heq : chat_handler env st req (some u) =
      finishPath env u (clean_response t) req.use_history
        (some (sysMsgs req ++ h.drop 10 ++ [⟨"user", req.message⟩]))
        { (check_rate_limit true true st ("rate:" ++ u) 60 60).2 with
          convs := setKey (check_rate_limit true true st ("rate:" ++ u) 60 60).2.convs
            ("conv:" ++ u)
            (h ++ [⟨"user", req.message⟩, ⟨"assistant", clean_response t⟩]) }
        (if env.fsDb then ([⟨u, req.message, clean_response t, "llama3"⟩] : List ChatDoc)
          else []) := by
    by_cases hdb : env.fsDb <;>
      simp [chat_handler, huid, hcfg, hup, huse, hb, hfst, hhist, takeLast, hlen,
        hdrop, hllm2, save_conversation, hsave, hdb]
  refine ⟨?_, ?_, ?_, ?_⟩
  · rw [heq]
    exact (finishPath_proj _ _ _ _ _ _ _).2.2.2.1
  · rw [heq, (finishPath_proj _ _ _ _ _ _ _).2.2.2.2.1]
    exact lookupKey_setKey_self _ _ _
  · simp [hlen]
  · rw [heq, finishPath_ok _ _ _ _ _ _ _ (Or.inr hlog), huse]
    simp

/-- C5 witness: a concrete 30-message transcript, history enabled,
caller `u1`: the upstream call gets the last 20 plus the new user
message, and the saved transcript is the original 30 plus 2. -/
theorem c5_history_window_witness :
    (chat_handler ⟨true, true, true, Option.none, Option.none, fun _ => .ok "pong"⟩
        ⟨[], [], [("conv:u1", List.replicate 30 ⟨"user", "m"⟩)]⟩
        ⟨"hi", Option.none, Option.none, true⟩ (some "u1")).upstream =
      some (sysMsgs ⟨"hi", Option.none, Option.none, true⟩ ++
        (List.replicate 30 (⟨"user", "m"⟩ : Msg)).drop 10 ++ [⟨"user", "hi"⟩]) ∧
    lookupKey (chat_handler ⟨true, true, true, Option.none, Option.none, fun _ => .ok "pong"⟩
        ⟨[], [], [("conv:u1", List.replicate 30 ⟨"user", "m"⟩)]⟩
        ⟨"hi", Option.none, Option.none, true⟩ (some "u1")).redis.convs "conv:u1" =
      some (List.replicate 30 (⟨"user", "m"⟩ : Msg) ++
        [⟨"user", "hi"⟩, ⟨"assistant", clean_response "pong"⟩]) ∧
    (List.replicate 30 (⟨"user", "m"⟩ : Msg) ++
      [(⟨"user", "hi"⟩ : Msg), ⟨"assistant", clean_response "pong"⟩]).length = 32 ∧
    (chat_handler ⟨true, true, true, Option.none, Option.none, fun _ => .ok "pong"⟩
        ⟨[], [], [("conv:u1", List.replicate 30 ⟨"user", "m"⟩)]⟩
        ⟨"hi", Option.none, Option.none, true⟩ (some "u1")).outcome =
      .ok (clean_response "pong") (some "u1") :=
  c5_history_window _ _ _ "u1" "pong" (List.replicate 30 ⟨"user", "m"⟩)
    rfl rfl rfl (by decide) (by decide) (by decide) (by simp) (by decide) rfl rfl rfl

/-!  Claim C8: best-effort persistence. -/

/-- The exact message list the `/chat` handler sends upstream. -/
def upstream_messages (env : ChatEnv) (st : RedisBackend) (req : ChatReq)
    (x_user_id : Option String) : List Msg :=
  let user_id := pyOrStr x_user_id "anonymous"
  let st1 := (check_rate_limit env.redisCfg env.redisUp st ("rate:" ++ user_id) 60 60).2
  let history := if req.use_history && !(user_id == "anonymous")
    then get_conversation env.redisCfg env.redisUp st1 user_id else []
  sysMsgs req ++ takeLast 20 history ++ [⟨"user", req.message⟩]

/-- C8 (counterexample): with upstream generation succeeding but a
configured Firestore whose `save_chat_message` raises, the caller
receives the generic 500 failure — the persistence failure propagates
to the caller-facing result instead of being swallowed. -/
theorem c8_persistence_counterexample :
    (chat_handler ⟨false, false, true, some "boom", Option.none, fun _ => .ok "hi there"⟩
        ⟨[], [], []⟩ ⟨"q", Option.none, Option.none, false⟩ (some "u1")).outcome =
      .serverError ("Error generating response: " ++ "boom") ∧
    (∀ r cid, (chat_handler ⟨false, false, true, some "boom", Option.none,
        fun _ => .ok "hi there"⟩
        ⟨[], [], []⟩ ⟨"q", Option.none, Option.none, false⟩ (some "u1")).outcome ≠
      .ok r cid) := by
  constructor
  · rfl
  · intro r cid hcontra
    rw [show (chat_handler ⟨false, false, true, some "boom", Option.none,
        fun _ => .ok "hi there"⟩ ⟨[], [], []⟩ ⟨"q", Option.none, Option.none, false⟩
        (some "u1")).outcome =
      ChatOutcome.serverError ("Error generating response: " ++ "boom") from rfl] at hcontra
    cases hcontra

/-- **C8** (amended): when upstream generation succeeds and the
request was admitted, the caller receives the success response
provided the document store either is unconfigured (its writes are
silently skipped) or none of its writes raises; this holds for EVERY
Redis state, configuration and reachability — Redis conversation-save
failures are always swallowed by the Redis layer.  But an exception
from a configured Firestore write (`save_chat_message` or
`log_request`) propagates and the caller receives a 500 despite
successful generation (see the counterexample). -/
theorem c8_persistence_best_effort (env : ChatEnv) (st : RedisBackend) (req : ChatReq)
    (uid : Option String) (t : String)
    (hllm : env.llm (upstream_messages env st req uid) = .ok t)
    (hadm : (check_rate_limit env.redisCfg env.redisUp st
      ("rate:" ++ pyOrStr uid "anonymous") 60 60).1.1 = true)
    (hfs : env.fsDb = false ∨ (env.fsSaveErr = Option.none ∧ env.fsLogErr = Option.none)) :
    (chat_handler env st req uid).outcome =
      .ok (clean_response t)
        (if req.use_history then some (pyOrStr uid "anonymous") else Option.none) := by
  have hups := hllm
  unfold upstream_messages at hups
  dsimp only at hups
  unfold chat_handler
  dsimp only
  rw [hadm]
  dsimp only
  rw [hups]
  dsimp only
  by_cases hdb : env.fsDb
  · rcases hfs with hcontr | ⟨hs, hl⟩
    · rw [hcontr] at hdb; cases hdb
    · by_cases hanon2 : (pyOrStr uid "anonymous") == "anonymous"
      · simp only [hanon2, Bool.not_true, Bool.false_and, Bool.false_eq_true, if_false]
        exact finishPath_ok _ _ _ _ _ _ _ (Or.inr hl)
      · simp only [Bool.not_eq_true] at hanon2
        simp only [hanon2, Bool.not_false, Bool.true_and, hdb, if_true, hs]
        exact finishPath_ok _ _ _ _ _ _ _ (Or.inr hl)
  · simp only [Bool.not_eq_true] at hdb
    simp only [hdb, Bool.and_false, Bool.false_eq_true, if_false]
    exact finishPath_ok _ _ _ _ _ _ _ (Or.inl hdb)

/-- C8 amended-theorem witness: generation succeeds with an
unconfigured Redis (history silently empty, rate limiter fails open)
and a healthy configured Firestore — the caller gets the success
response. -/
theorem c8_persistence_best_effort_witness :
    (chat_handler ⟨false, false, true, Option.none, Option.none, fun _ => .ok "hello"⟩
        ⟨[], [], []⟩ ⟨"q", Option.none, Option.none, true⟩ (some "u1")).outcome =
      .ok (clean_response "hello") (if true then some (pyOrStr (some "u1") "anonymous")
        else Option.none) :=
  c8_persistence_best_effort _ _ ⟨"q", Option.none, Option.none, true⟩ (some "u1") "hello"
    rfl rfl (Or.inr ⟨rfl, rfl⟩)
